import Mathlib

/-!
Verification of the notebook toolbox (notebook_v0.py, notebook_v1.py,
notebook_v2.py) against its natural-language specification.

Python strings are embedded as `List Char`; Python `None` as `Option.none`;
an operation that can raise (IndexError on `[0]` / `pop()`, KeyError on a
missing dict key, ValueError from `int`) returns an `Option`, with `none`
standing for the raised error.
-/

/-- Python strings are modelled as lists of characters. -/
abbrev Str := List Char

/-- Coerce a Lean string literal to the character-list model. -/
def str (s : String) : Str := s.data

/-! ## Data model

An output dict of a code cell (`output_type` determines which keys are
present: stream outputs carry `name` and `text`, error outputs `ename` and
`evalue`, display-data outputs `data`, a MIME-type-to-payload mapping). -/

/-- One entry of a code cell's `outputs` list, as found in the .ipynb dict. -/
inductive Output where
  | stream (name : Str) (text : List Str)
  | error (ename : Str) (evalue : Str)
  | display (data : List (Str × Str))
deriving DecidableEq

/-- The `output_type` key, present on every output dict. -/
def Output.output_type : Output → Str
  | .stream _ _ => str "stream"
  | .error _ _ => str "error"
  | .display _ => str "display_data"

/-- The `name` key: present on stream outputs only; `none` models a KeyError. -/
def Output.nameField : Output → Option Str
  | .stream n _ => some n
  | _ => none

/-- The `text` key: present on stream outputs only; `none` models a KeyError. -/
def Output.textField : Output → Option (List Str)
  | .stream _ t => some t
  | _ => none

/-- The `ename` key: present on error outputs only; `none` models a KeyError. -/
def Output.enameField : Output → Option Str
  | .error en _ => some en
  | _ => none

/-- The `evalue` key: present on error outputs only; `none` models a KeyError. -/
def Output.evalueField : Output → Option Str
  | .error _ ev => some ev
  | _ => none

/-- The `data` key: present on display-data outputs only; `none` models a
KeyError. -/
def Output.dataField : Output → Option (List (Str × Str))
  | .display d => some d
  | _ => none

/-- A cell dict of the .ipynb format (`cell_type` either `"markdown"` or
`"code"`): markdown cells carry `id` and `source`; code cells additionally
carry `execution_count` (`none` = Python `None`) and `outputs`.  The same
shape also embeds the notebook_v1 `MarkdownCell` / `CodeCell` objects, whose
constructors copy exactly these dict entries (the v1 objects store no
outputs; every operation on them either ignores outputs or writes `[]`). -/
inductive Cell where
  | markdown (id : Str) (source : List Str)
  | code (id : Str) (source : List Str) (execution_count : Option Nat)
      (outputs : List Output)
deriving DecidableEq

/-- The `id` entry of a cell. -/
def Cell.idOf : Cell → Str
  | .markdown i _ => i
  | .code i _ _ _ => i

/-- The `source` entry of a cell. -/
def Cell.sourceOf : Cell → List Str
  | .markdown _ s => s
  | .code _ s _ _ => s

/-- The markdown/code kind of a cell. -/
inductive Tag where
  | markdown
  | code
deriving DecidableEq

/-- The `cell_type` tag of a cell. -/
def Cell.kind : Cell → Tag
  | .markdown _ _ => .markdown
  | .code _ _ _ _ => .code

/-- `true` when a code cell's `outputs` list is empty (markdown cells carry
no outputs at all). -/
def Cell.noOuts : Cell → Bool
  | .markdown _ _ => true
  | .code _ _ _ outs => outs.isEmpty

/-- The top-level .ipynb dict: required keys `cells`, `nbformat`,
`nbformat_minor` (the opaque `metadata` mapping plays no role in any claim
and is omitted).  This is the input type of the notebook_v0 functions and
the output type of notebook_v1's `Serializer.serialize`. -/
structure NbV0 where
  cells : List Cell
  nbformat : Nat
  nbformat_minor : Nat
deriving DecidableEq

/-- A notebook_v1 `Notebook` object: a version string and a cell list. -/
structure NbV1 where
  version : Str
  cells : List Cell
deriving DecidableEq

/-! ## Decimal rendering and parsing of naturals

`notebook_v1.Notebook.__init__` and `notebook_v2.NotebookLoader.load` render
the version with `f"{nbformat}.{nbformat_minor}"`; `Serializer.serialize`
parses the two halves back with `int(...)`. -/

/-- The decimal digit characters, `str(d)` for a single digit `d`. -/
def dChar : Nat → Char
  | 0 => '0' | 1 => '1' | 2 => '2' | 3 => '3' | 4 => '4'
  | 5 => '5' | 6 => '6' | 7 => '7' | 8 => '8' | _ => '9'

/-- Python `str(n)` for a natural number, via the base-10 digits. -/
def natToChars (n : Nat) : Str :=
  if n = 0 then ['0'] else ((Nat.digits 10 n).map dChar).reverse

/-- Decimal digit test, mirroring what Python's `int` accepts on the
version components appearing in this code base. -/
def isDigitChar (c : Char) : Bool := 48 ≤ c.toNat && c.toNat ≤ 57

/-- Accumulating decimal parser. -/
def parseNatAux : Nat → Str → Option Nat
  | acc, [] => some acc
  | acc, c :: cs =>
      if isDigitChar c then parseNatAux (10 * acc + (c.toNat - 48)) cs
      else none

/-- Python `int(s)` on a (non-negative decimal) string; `none` models the
ValueError raised on an empty or non-numeric string. -/
def parseNat (s : Str) : Option Nat :=
  if s.isEmpty then none else parseNatAux 0 s

/-- Accumulator-based worker for `Python str.split(".")`. -/
def splitDotAux (acc : Str) : Str → List Str
  | [] => [acc.reverse]
  | c :: cs =>
      if c = '.' then acc.reverse :: splitDotAux [] cs
      else splitDotAux (c :: acc) cs

/-- Python `s.split(".")`. -/
def splitDot (s : Str) : List Str := splitDotAux [] s

/-! ## The percent-format emitters

`notebook_v0.to_percent` builds a piece list, appends two separate `"\n"`
pieces after every cell, pops ONE piece, and joins;
`notebook_v1.PyPercentSerializer.to_py_percent` appends a single `"\n\n"`
piece after every cell, pops it, and joins.  The `pop()` on a zero-cell
notebook raises IndexError, modelled by `none`. -/

/-- The pieces one loop iteration of `to_percent` appends for one cell:
the marker line, the (comment-prefixed) source pieces, and two separate
`"\n"` pieces. -/
def percentBody : Cell → List Str
  | .markdown _ src =>
      str "# %% [markdown]\n" :: (src.flatMap fun e => [str "# ", e]) ++ [['\n'], ['\n']]
  | .code _ src _ _ =>
      str "# %%\n" :: src ++ [['\n'], ['\n']]

/-- The pieces `to_percent` accumulates in `ans`, in order. -/
def percentPieces (cells : List Cell) : List Str :=
  cells.flatMap percentBody

/-- `ans.pop()` followed by `"".join(ans)`: `none` models the IndexError
that `pop` raises on an empty piece list. -/
def joinPop : List Str → Option Str
  | [] => none
  | p :: ps => some ((p :: ps).dropLast.flatten)

/-- `notebook_v0.to_percent` (src/notebook_v0.py lines 180-194). -/
def to_percent (nb : NbV0) : Option Str :=
  joinPop (percentPieces nb.cells)

/-- The pieces one loop iteration of `to_py_percent` appends for one cell:
the marker line, the (comment-prefixed) source pieces, and one single
`"\n\n"` piece. -/
def pyPercentBody : Cell → List Str
  | .markdown _ src =>
      str "# %% [markdown]\n" :: (src.flatMap fun e => [str "# ", e]) ++ [str "\n\n"]
  | .code _ src _ _ =>
      str "# %%\n" :: src ++ [str "\n\n"]

/-- The pieces `to_py_percent` accumulates in `ans`, in order. -/
def pyPercentPieces (cells : List Cell) : List Str :=
  cells.flatMap pyPercentBody

/-- `notebook_v1.PyPercentSerializer.to_py_percent` (src/notebook_v1.py
lines 167-183). -/
def to_py_percent (nb : NbV1) : Option Str :=
  joinPop (pyPercentPieces nb.cells)

/-- The pieces of `percentBody` without the last `"\n"` piece (used to
relate the two emitters). -/
def percentInit : Cell → List Str
  | .markdown _ src =>
      str "# %% [markdown]\n" :: (src.flatMap fun e => [str "# ", e]) ++ [['\n']]
  | .code _ src _ _ =>
      str "# %%\n" :: src ++ [['\n']]

/-- The pieces of `pyPercentBody` without the last `"\n\n"` piece. -/
def pyPercentInit : Cell → List Str
  | .markdown _ src =>
      str "# %% [markdown]\n" :: src.flatMap fun e => [str "# ", e]
  | .code _ src _ _ =>
      str "# %%\n" :: src

/-- `notebook_v1.Notebook.__init__` applied to an .ipynb dict: version from
`f"{nbformat}.{nbformat_minor}"`, cells dispatched on `cell_type` (the model
has exactly the two recognized kinds, so every cell is kept). -/
def notebookOfDict (nb : NbV0) : NbV1 :=
  { version := natToChars nb.nbformat ++ '.' :: natToChars nb.nbformat_minor
    cells := nb.cells }

/-! ## notebook_v0: clear_outputs and the artifact extractors -/

/-- `notebook_v0.clear_outputs` (lines 284-339): for every code cell, set
`execution_count` to `None` and `outputs` to `[]`. -/
def clear_outputs (nb : NbV0) : NbV0 :=
  { nb with
    cells := nb.cells.map fun c =>
      match c with
      | .markdown i s => .markdown i s
      | .code i s _ _ => .code i s none [] }

/-- One `if flag == True and outputs[0][name] == wanted:` arm of
`get_stream`: short-circuit on the flag, then index `outputs[0]` (IndexError
on an empty list), read its `name` key (KeyError on a non-stream output),
and on a match append `outputs[0][text][0]` (IndexError on empty text). -/
def streamPiecesFor (flag : Bool) (wanted : Str) (outs : List Output) :
    Option (List Str) :=
  if flag then
    match outs with
    | [] => none
    | o :: _ =>
      match o.nameField with
      | none => none
      | some n =>
        if n = wanted then
          match o.textField with
          | none => none
          | some t =>
            match t with
            | [] => none
            | x :: _ => some [x]
        else some []
  else some []

/-- The contribution of one cell to `get_stream`: markdown cells are
skipped; a code cell runs the stdout arm then the stderr arm. -/
def cellStream (stdout stderr : Bool) : Cell → Option (List Str)
  | .markdown _ _ => some []
  | .code _ _ _ outs =>
      match streamPiecesFor stdout (str "stdout") outs,
            streamPiecesFor stderr (str "stderr") outs with
      | some r1, some r2 => some (r1 ++ r2)
      | _, _ => none

/-- `notebook_v0.get_stream` (lines 342-364): `"".join` of the collected
pieces; `none` models a raised IndexError/KeyError. -/
def get_stream (nb : NbV0) (stdout stderr : Bool) : Option Str :=
  (nb.cells.mapM (cellStream stdout stderr)).map fun ls => ls.flatten.flatten

/-- The contribution of one cell to `get_exceptions`: code cells index
`outputs[0]` unconditionally (IndexError on empty outputs, modelled `none`)
and test its `output_type` against `"error"`; the structured error value
built by `eval` from `ename` and `evalue` is modelled as the pair of the two
strings. -/
def cellExceptions : Cell → Option (List (Str × Str))
  | .markdown _ _ => some []
  | .code _ _ _ outs =>
      match outs with
      | [] => none
      | o :: _ =>
        if o.output_type = str "error" then
          match o.enameField, o.evalueField with
          | some en, some ev => some [(en, ev)]
          | _, _ => none
        else some []

/-- `notebook_v0.get_exceptions` (lines 367-391). -/
def get_exceptions (nb : NbV0) : Option (List (Str × Str)) :=
  (nb.cells.mapM cellExceptions).map List.flatten

/-- Python `key in d` / `d[key]` on the MIME mapping of a display-data
output. -/
def lookupMime (k : Str) : List (Str × Str) → Option Str
  | [] => none
  | (k2, v) :: rest => if k2 = k then some v else lookupMime k rest

/-- The contribution of one cell to `get_images`: the guard is
`cell_type == code and len(outputs) != 0 and "image/png" in outputs[0]["data"]`;
reading `outputs[0]["data"]` raises a KeyError (modelled `none`) when the
first output is not a display-data output.  The base64 and PNG decoding is
performed by the external base64/PIL/numpy libraries and is applied
pointwise to each selected payload, so the embedding returns the selected
`image/png` payloads themselves. -/
def cellImages : Cell → Option (List Str)
  | .markdown _ _ => some []
  | .code _ _ _ outs =>
      match outs with
      | [] => some []
      | o :: _ =>
        match o.dataField with
        | none => none
        | some d =>
          match lookupMime (str "image/png") d with
          | none => some []
          | some payload => some [payload]

/-- `notebook_v0.get_images` (lines 394-421), up to the external image
decoding applied to each collected payload. -/
def get_images (nb : NbV0) : Option (List Str) :=
  (nb.cells.mapM cellImages).map List.flatten

/-! ## notebook_v1: the tree-of-records serializer -/

/-- The cell dict `Serializer.serialize` builds: markdown cells keep
`cell_type`, `id`, `source`; code cells keep `cell_type`,
`execution_count`, `id`, `source` and get a fresh empty `outputs` list. -/
def serializeCell : Cell → Cell
  | .markdown i s => .markdown i s
  | .code i s cnt _ => .code i s cnt []

/-- `notebook_v1.Serializer.serialize` (lines 236-259): build the cell
dicts, then split the version string on `"."` and convert the first two
pieces with `int` (`none` models the IndexError of a dot-less version or
the ValueError of a non-numeric piece). -/
def serialize (nb : NbV1) : Option NbV0 :=
  match splitDot nb.version with
  | s0 :: s1 :: _ =>
      match parseNat s0, parseNat s1 with
      | some a, some b => some ⟨nb.cells.map serializeCell, a, b⟩
      | _, _ => none
  | _ => none

/-! ## notebook_v2: the object model, Markdownizer and PyPercentLoader

In notebook_v2, `MarkdownCell` subclasses `CodeCell`; a cell object carries
`id`, `source`, `execution_count` and its `__class__`, modelled by `tag`.
-/

/-- A notebook_v2 cell object (as built by `NotebookLoader`, with string
ids).  `tag` models the object's `__class__`. -/
structure CellV2 where
  id : Str
  source : List Str
  execution_count : Option Nat
  tag : Tag
deriving DecidableEq

/-- A notebook_v2 `Notebook` object. -/
structure NbV2 where
  version : Str
  cells : List CellV2
deriving DecidableEq

/-- The per-cell dispatch of `notebook_v2.NotebookLoader.load`: on
`cell_type == "code"` build `CodeCell(id, source, execution_count)`, on
`"markdown"` build `MarkdownCell(id, source)` (whose constructor passes
`None` as the execution count). -/
def loaderCell : Cell → CellV2
  | .code i s cnt _ => { id := i, source := s, execution_count := cnt, tag := .code }
  | .markdown i s => { id := i, source := s, execution_count := none, tag := .markdown }

/-- `notebook_v2.NotebookLoader.load` (lines 127-137) applied to an
already-parsed .ipynb dict, building the cell objects with `loaderCell` and
rendering the version as `f"{nbformat}.{nbformat_minor}"`. -/
def notebookLoaderOfDict (d : NbV0) : NbV2 :=
  { version := natToChars d.nbformat ++ '.' :: natToChars d.nbformat_minor
    cells := d.cells.map loaderCell }

/-- `notebook_v2.Markdownizer.markdownize` (lines 165-171): for every cell,
`if isinstance(cell, CodeCell): cell.__class__ = MarkdownCell`.  Since
`MarkdownCell` subclasses `CodeCell`, `isinstance(cell, CodeCell)` holds for
every cell of the notebook, so every cell is re-tagged to markdown in
place; `id`, `source` and `execution_count` are untouched. -/
def markdownize (nb : NbV2) : NbV2 :=
  { nb with cells := nb.cells.map fun c => { c with tag := .markdown } }

/-- A cell object built by `notebook_v2.PyPercentLoader`: the loader does
not know the original ids and assigns consecutive integers instead, so its
cells have integer ids. -/
inductive CellP where
  | markdown (id : Nat) (source : List Str)
  | code (id : Nat) (source : List Str) (execution_count : Nat)
deriving DecidableEq

/-- The `source` list of a loader-built cell. -/
def CellP.sourceOf : CellP → List Str
  | .markdown _ s => s
  | .code _ s _ => s

/-- The markdown/code kind of a loader-built cell. -/
def CellP.kind : CellP → Tag
  | .markdown _ _ => .markdown
  | .code _ _ _ => .code

/-- Python `f.readlines()` on a file holding the given text: split after
every newline character, keeping the newline; a final piece without a
newline is kept, an empty final piece is not. -/
def splitLinesAux (acc : Str) : Str → List Str
  | [] => if acc.isEmpty then [] else [acc.reverse]
  | c :: cs =>
      if c = '\n' then (acc.reverse ++ ['\n']) :: splitLinesAux [] cs
      else splitLinesAux (c :: acc) cs

/-- Python `f.readlines()` on the given text. -/
def splitLines (text : Str) : List Str := splitLinesAux [] text

/-- Python `needle in hay` on strings: substring containment. -/
def strContains (needle : Str) : Str → Bool
  | [] => needle.isEmpty
  | c :: t => needle.isPrefixOf (c :: t) || strContains needle t

/-- The inner accumulation loop of `PyPercentLoader.load`: consume lines
into the open cell until a blank line (`"\n"`) closes it or the loop bound
`counter < l - 1` stops it (the line at index `l - 1` is never consumed).
A consumed line loses its trailing newline (`[:-1]`); in the markdown
branch it also loses its first two characters (`[2:]` / `[2:-1]`).
Returns the accumulated cell source and the unconsumed remaining lines. -/
def grabCell (stripTwo : Bool) : List Str → List Str × List Str
  | [] => ([], [])
  | [x] => ([], [x])
  | line :: rest =>
      if line = ['\n'] then ([], rest)
      else
        let item :=
          if line.getLast? = some '\n' then
            (if stripTwo then (line.drop 2).dropLast else line.dropLast)
          else
            (if stripTwo then line.drop 2 else line)
        let p := grabCell stripTwo rest
        (item :: p.1, p.2)

/-- The outer `while counter < l - 1` loop of `PyPercentLoader.load`: a line
containing `"markdown"` opens a markdown cell, any other line opens a code
cell (the line itself is consumed as the delimiter in both branches);
code cells get execution count 1.  The fuel argument is an upper bound on
the number of loop iterations; every iteration consumes at least the
delimiter line, so `lines.length` suffices for the fuel. -/
def loadAux : Nat → Nat → List Str → List CellP
  | 0, _, _ => []
  | _ + 1, _, [] => []
  | _ + 1, _, [_] => []
  | fuel + 1, id, line :: rest =>
      if strContains (str "markdown") line then
        let p := grabCell true rest
        CellP.markdown id p.1 :: loadAux fuel (id + 1) p.2
      else
        let p := grabCell false rest
        CellP.code id p.1 1 :: loadAux fuel (id + 1) p.2

/-- `notebook_v2.PyPercentLoader.load` (lines 232-275) applied to the text
of the loaded file: `readlines`, then the scanning loop starting at
`counter = 0`, `id = 0`. -/
def pyPercentLoad (text : Str) : List CellP :=
  let lines := splitLines text
  loadAux lines.length 0 lines

/-! ## Concrete inputs used by the individual claims -/

/-- Claim C1's round-trip input: sequential integer-string identifiers,
one source line per cell. -/
def nbRoundTrip : NbV1 :=
  ⟨str "4.5",
    [.markdown (str "0") [str "Hi"], .code (str "1") [str "x=1"] (some 1) []]⟩

/-- Claim C3's notebook, as a v0 dict. -/
def nbScenarioDict : NbV0 :=
  ⟨[.markdown (str "a") [str "Hi\n"], .code (str "b") [str "x=1"] (some 1) []], 4, 5⟩

/-- Claim C3's notebook, as a v1 object. -/
def nbScenarioObj : NbV1 :=
  ⟨str "4.5",
    [.markdown (str "a") [str "Hi\n"], .code (str "b") [str "x=1"] (some 1) []]⟩

/-- Claim C4's empty notebook, as a v0 dict (version "4.5"). -/
def nbEmptyDict : NbV0 := ⟨[], 4, 5⟩

/-- Claim C4's empty notebook, as a v1 object. -/
def nbEmptyObj : NbV1 := ⟨str "4.5", []⟩

/-- Claim C5's failing input: one code cell with an empty outputs list. -/
def nbStreamEmpty : NbV0 :=
  ⟨[.code (str "b") [str "x=1"] (some 1) []], 4, 5⟩

/-- A second claim C5 input: one code cell with two stdout stream outputs
of two text lines each. -/
def nbStreamMany : NbV0 :=
  ⟨[.code (str "b") [str "x=1"] (some 1)
      [.stream (str "stdout") [str "a\n", str "b\n"],
       .stream (str "stdout") [str "c\n", str "d\n"]]], 4, 5⟩

/-- Claim C6's failing input: one code cell with two outputs, the second an
error output. -/
def nbErrSecond : NbV0 :=
  ⟨[.code (str "b") [str "1+\"a\""] (some 1)
      [.stream (str "stdout") [str "partial\n"],
       .error (str "TypeError") (str "unsupported operand")]], 4, 5⟩

/-- Claim C7's failing input: one code cell whose non-empty outputs contain
a display-data output carrying `image/png`, but not in first position. -/
def nbPngSecond : NbV0 :=
  ⟨[.code (str "b") [str "plot()"] (some 1)
      [.display [(str "text/html", str "<p>fig</p>")],
       .display [(str "image/png", str "iVBORw0KGgo=")]]], 4, 5⟩

/-- Claim C9's notebook: a single code cell, as a v2 object. -/
def nbOneCode : NbV2 :=
  ⟨str "4.5", [{ id := str "b", source := [str "x=1"], execution_count := some 1, tag := .code }]⟩

/-- Claim C10's counterexample input, as a v0 dict. -/
def nbEmitDiff : NbV0 :=
  ⟨[.markdown (str "a") [str "Hi\n"], .code (str "b") [str "x=1"] (some 1) []], 4, 5⟩

/-- Claim C2's witness notebook: the version string is written as the
rendering of 4 and 5 so that the version hypothesis holds by `rfl`. -/
def nbSerializeW : NbV1 :=
  ⟨natToChars 4 ++ '.' :: natToChars 5,
    [.markdown (str "a") [str "Hi\n"], .code (str "b") [str "x=1"] (some 1) []]⟩

/-! # Supporting lemmas -/

theorem str_two_nl : str "\n\n" = ['\n', '\n'] := rfl

theorem percentPieces_nil : percentPieces [] = [] := rfl

theorem pyPercentPieces_nil : pyPercentPieces [] = [] := rfl

theorem percentPieces_append (l1 l2 : List Cell) :
    percentPieces (l1 ++ l2) = percentPieces l1 ++ percentPieces l2 := by
  simp [percentPieces]

theorem pyPercentPieces_append (l1 l2 : List Cell) :
    pyPercentPieces (l1 ++ l2) = pyPercentPieces l1 ++ pyPercentPieces l2 := by
  simp [pyPercentPieces]

theorem percentBody_decomp (c : Cell) :
    percentBody c = percentInit c ++ [['\n']] := by
  cases c <;> simp [percentBody, percentInit]

theorem pyPercentBody_decomp (c : Cell) :
    pyPercentBody c = pyPercentInit c ++ [str "\n\n"] := by
  cases c <;> simp [pyPercentBody, pyPercentInit]

theorem flatten_percentInit (c : Cell) :
    (percentInit c).flatten = (pyPercentInit c).flatten ++ ['\n'] := by
  cases c <;> simp [percentInit, pyPercentInit]

theorem flatten_body_eq (c : Cell) :
    (percentBody c).flatten = (pyPercentBody c).flatten := by
  rw [percentBody_decomp, pyPercentBody_decomp]
  simp [flatten_percentInit c, str_two_nl]

theorem flatten_pieces_eq (cells : List Cell) :
    (percentPieces cells).flatten = (pyPercentPieces cells).flatten := by
  induction cells with
  | nil => rfl
  | cons c cs ih =>
    have h1 : percentPieces (c :: cs) = percentBody c ++ percentPieces cs := by
      simp [percentPieces]
    have h2 : pyPercentPieces (c :: cs) = pyPercentBody c ++ pyPercentPieces cs := by
      simp [pyPercentPieces]
    simp [h1, h2, flatten_body_eq c, ih]

theorem joinPop_concat (Y : List Str) (x : Str) :
    joinPop (Y ++ [x]) = some Y.flatten := by
  cases Y with
  | nil => rfl
  | cons y ys =>
    show some ((y :: (ys ++ [x])).dropLast.flatten) = some (y :: ys).flatten
    rw [← List.cons_append, List.dropLast_concat]

/-- The extra trailing newline of `to_percent` relative to `to_py_percent`
on a notebook ending in cell `c`. -/
theorem emit_snoc_rel (cs : List Cell) (c : Cell) :
    joinPop (percentPieces (cs ++ [c]))
      = some ((pyPercentPieces cs ++ pyPercentInit c).flatten ++ ['\n']) := by
  have h : percentPieces (cs ++ [c])
      = (percentPieces cs ++ percentInit c) ++ [['\n']] := by
    rw [percentPieces_append]
    show percentPieces cs ++ percentPieces [c] = _
    have : percentPieces [c] = percentBody c := by simp [percentPieces]
    rw [this, percentBody_decomp, ← List.append_assoc]
  rw [h, joinPop_concat]
  simp [flatten_pieces_eq cs, flatten_percentInit c]

theorem py_emit_snoc (cs : List Cell) (c : Cell) :
    joinPop (pyPercentPieces (cs ++ [c]))
      = some ((pyPercentPieces cs ++ pyPercentInit c).flatten) := by
  have h : pyPercentPieces (cs ++ [c])
      = (pyPercentPieces cs ++ pyPercentInit c) ++ [str "\n\n"] := by
    rw [pyPercentPieces_append]
    show pyPercentPieces cs ++ pyPercentPieces [c] = _
    have : pyPercentPieces [c] = pyPercentBody c := by simp [pyPercentPieces]
    rw [this, pyPercentBody_decomp, ← List.append_assoc]
  rw [h, joinPop_concat]

/-! # Claim theorems -/

/-- Claim C8: for every notebook, `clear_outputs (clear_outputs nb)` equals
`clear_outputs nb`: the clear-all-outputs operation is idempotent, since
after one application every code cell already has execution count `None`
and an empty output list. -/
theorem clear_outputs_idempotent (nb : NbV0) :
    clear_outputs (clear_outputs nb) = clear_outputs nb := by
  cases nb with
  | mk cells a b =>
    simp only [clear_outputs, List.map_map, NbV0.mk.injEq, and_true]
    congr 1
    funext c
    cases c <;> rfl

/-- Claim C4 (code_bug evaluation): on the notebook with version "4.5" and
no cells, both `to_percent` and `to_py_percent` reach `ans.pop()` with an
empty piece list and raise an IndexError (modelled `none`) instead of
returning the empty string the specification requires. -/
theorem empty_notebook_percent_raises :
    to_percent nbEmptyDict = none ∧ to_py_percent nbEmptyObj = none := by
  constructor <;> rfl

/-- Claim C3 (counterexample): `to_percent` does not convert the two-cell
scenario notebook to exactly the specified string; its `pop()` removes only
one of the two `"\n"` separator pieces, so a trailing newline remains. -/
theorem scenario_to_percent_ne_exact :
    to_percent nbScenarioDict
      ≠ some (str "# %% [markdown]\n# Hi\n\n\n# %%\nx=1") := by decide

/-- Claim C3 (amended): the scenario notebook converts via
`PyPercentSerializer.to_py_percent` to exactly
`"# %% [markdown]\n# Hi\n\n\n# %%\nx=1"` with no trailing separator, while
`notebook_v0.to_percent` yields the same string followed by one extra
trailing newline. -/
theorem scenario_percent_strings :
    to_py_percent nbScenarioObj
        = some (str "# %% [markdown]\n# Hi\n\n\n# %%\nx=1")
    ∧ to_percent nbScenarioDict
        = some (str "# %% [markdown]\n# Hi\n\n\n# %%\nx=1\n") := by
  constructor <;> rfl

/-- Claim C10 (counterexample): the two percent-format emitters are not
extensionally equal: on the scenario notebook `to_percent` emits one more
trailing newline than `to_py_percent` on the corresponding object-model
notebook. -/
theorem emitters_differ :
    to_percent nbEmitDiff ≠ to_py_percent (notebookOfDict nbEmitDiff) := by decide

/-- Claim C10 (amended): for every notebook dict, `notebook_v0.to_percent`
returns exactly `notebook_v1.PyPercentSerializer.to_py_percent` of the
corresponding object-model notebook followed by one extra newline
character; both raise (return `none`) on a notebook with no cells. -/
theorem emitters_differ_by_trailing_newline (nb : NbV0) :
    to_percent nb
      = (to_py_percent (notebookOfDict nb)).map (fun s => s ++ ['\n']) := by
  rcases List.eq_nil_or_concat nb.cells with h | ⟨cs, c, h⟩
  · simp [to_percent, to_py_percent, notebookOfDict, h, percentPieces_nil,
      pyPercentPieces_nil, joinPop]
  · rw [List.concat_eq_append] at h
    show joinPop (percentPieces nb.cells)
      = (joinPop (pyPercentPieces (notebookOfDict nb).cells)).map _
    rw [show (notebookOfDict nb).cells = nb.cells from rfl, h,
      emit_snoc_rel cs c, py_emit_snoc cs c]
    rfl

/-- Claim C5 (code_bug evaluation): `get_stream` with the default flag
setting (stdout selected) raises an IndexError (modelled `none`) on a code
cell whose outputs list is empty, instead of skipping it; and on a code
cell with two stdout stream outputs of two text lines each it returns only
the first text line of the first output instead of the full concatenation
`"a\nb\nc\nd\n"`. -/
theorem stream_extractor_defects :
    get_stream nbStreamEmpty true false = none
    ∧ get_stream nbStreamMany true false = some (str "a\n") := by
  constructor <;> rfl

/-- Claim C6 (code_bug evaluation): `get_exceptions` inspects only
`outputs[0]`; on a code cell whose second output is the only error output
it returns no error at all, where the specification requires exactly
one. -/
theorem error_extractor_misses_second_output :
    get_exceptions nbErrSecond = some [] := by rfl

/-- Claim C7 (code_bug evaluation): `get_images` tests the `image/png` key
only on `outputs[0]`; on a code cell whose non-empty outputs contain a
display-data output with an `image/png` entry in second position it
collects no image, where the specification requires one. -/
theorem image_extractor_misses_second_output :
    get_images nbPngSecond = some [] := by rfl

/-- Claim C1 (code_bug evaluation): round-tripping the two-cell notebook
with sequential integer-string identifiers and one source line per cell
through `PyPercentSerializer.to_py_percent` and `PyPercentLoader.load`
does not preserve the source line sequences: the loader's loop stops one
line before end-of-input, so the final `"x=1"` line is never consumed and
the code cell comes back with an empty source, while the cell count and
cell kinds do survive. -/
theorem percent_roundtrip_loses_final_line :
    (to_py_percent nbRoundTrip).map
        (fun t => (pyPercentLoad t).map fun c => (c.kind, c.sourceOf))
      = some [(Tag.markdown, [str "Hi"]), (Tag.code, [])]
    ∧ nbRoundTrip.cells.map (fun c => (c.kind, c.sourceOf))
      = [(Tag.markdown, [str "Hi"]), (Tag.code, [str "x=1"])] := by
  constructor <;> rfl

/-- Claim C9 (counterexample): the `markdownize` transform does not
preserve the markdown/code kind of existing cells: on a notebook with one
code cell it re-tags that cell to markdown in place. -/
theorem markdownize_changes_kind :
    (markdownize nbOneCode).cells.map CellV2.tag
      ≠ nbOneCode.cells.map CellV2.tag := by decide

/-- Claim C9 (amended): a cell's variant tag is set at construction and is
preserved by the toolbox operations except the convert-all-code-cells-to-
markdown transform, which re-tags every cell of the notebook to markdown in
place (it mutates `__class__` rather than building new cells), leaving
identifiers, sources and execution counts unchanged. -/
theorem markdownize_retags_all_cells (nb : NbV2) :
    (markdownize nb).cells.map CellV2.tag
        = List.replicate nb.cells.length Tag.markdown
    ∧ (markdownize nb).cells.map (fun c => (c.id, c.source, c.execution_count))
        = nb.cells.map (fun c => (c.id, c.source, c.execution_count)) := by
  constructor
  · simp [markdownize, List.map_map]
    exact List.map_const' nb.cells Tag.markdown
  · simp [markdownize, List.map_map]

/-! # Lemmas for the structured round trip (claim C2) -/

theorem dChar_toNat {d : Nat} (h : d < 10) : (dChar d).toNat = 48 + d := by
  interval_cases d <;> rfl

theorem isDigitChar_dChar {d : Nat} (h : d < 10) : isDigitChar (dChar d) = true := by
  interval_cases d <;> rfl

theorem mem_natToChars_digit {c : Char} {n : Nat} (h : c ∈ natToChars n) :
    48 ≤ c.toNat ∧ c.toNat ≤ 57 := by
  unfold natToChars at h
  by_cases h0 : n = 0
  · rw [if_pos h0] at h
    simp only [List.mem_singleton] at h
    subst h
    exact ⟨by decide, by decide⟩
  · rw [if_neg h0] at h
    rw [List.mem_reverse] at h
    obtain ⟨d, hd, rfl⟩ := List.mem_map.mp h
    have hlt : d < 10 := Nat.digits_lt_base (by norm_num) hd
    rw [dChar_toNat hlt]
    omega

theorem not_dot_mem_natToChars (n : Nat) : '.' ∉ natToChars n := by
  intro h
  have hd := mem_natToChars_digit h
  have : ('.').toNat = 46 := rfl
  omega

theorem parseNatAux_snoc (s : Str) (c : Char) :
    ∀ acc, parseNatAux acc (s ++ [c]) =
      (parseNatAux acc s).bind fun a =>
        if isDigitChar c then some (10 * a + (c.toNat - 48)) else none := by
  induction s with
  | nil =>
    intro acc
    by_cases hc : isDigitChar c <;> simp [parseNatAux, hc]
  | cons x xs ih =>
    intro acc
    by_cases hx : isDigitChar x <;> simp [parseNatAux, hx, ih]

theorem parseNatAux_digits (L : List Nat) :
    (∀ d ∈ L, d < 10) → ∀ acc,
      parseNatAux acc ((L.map dChar).reverse)
        = some (acc * 10 ^ L.length + Nat.ofDigits 10 L) := by
  induction L with
  | nil =>
    intro _ acc
    simp [parseNatAux, Nat.ofDigits_nil]
  | cons d L ih =>
    intro hL acc
    have hd : d < 10 := hL d (List.mem_cons_self d L)
    have hrest : ∀ x ∈ L, x < 10 := fun x hx => hL x (List.mem_cons_of_mem d hx)
    rw [List.map_cons, List.reverse_cons, parseNatAux_snoc, ih hrest acc]
    rw [Option.some_bind, if_pos (isDigitChar_dChar hd), dChar_toNat hd]
    rw [Nat.ofDigits_cons]
    have h48 : 48 + d - 48 = d := by omega
    rw [h48]
    congr 1
    rw [List.length_cons, pow_succ]
    ring

theorem parseNat_natToChars (n : Nat) : parseNat (natToChars n) = some n := by
  by_cases h0 : n = 0
  · subst h0; rfl
  · have hne : Nat.digits 10 n ≠ [] := Nat.digits_ne_nil_iff_ne_zero.mpr h0
    have hdig : ∀ d ∈ Nat.digits 10 n, d < 10 :=
      fun d hd => Nat.digits_lt_base (by norm_num) hd
    unfold parseNat natToChars
    rw [if_neg h0]
    have hempty : (((Nat.digits 10 n).map dChar).reverse).isEmpty = false := by
      simp [List.isEmpty_iff, hne]
    rw [hempty]
    simp only [Bool.false_eq_true, if_false]
    rw [parseNatAux_digits (Nat.digits 10 n) hdig 0]
    simp [Nat.ofDigits_digits]

theorem splitDotAux_no_dot (s : Str) (hs : '.' ∉ s) :
    ∀ acc, splitDotAux acc s = [acc.reverse ++ s] := by
  induction s with
  | nil => intro acc; simp [splitDotAux]
  | cons c cs ih =>
    intro acc
    have hc : ¬c = '.' := fun h => hs (by simp [h])
    have hcs : '.' ∉ cs := fun h => hs (List.mem_cons_of_mem _ h)
    simp [splitDotAux, hc, ih hcs]

theorem splitDotAux_split (s1 s2 : Str) (hs : '.' ∉ s1) :
    ∀ acc, splitDotAux acc (s1 ++ '.' :: s2)
      = (acc.reverse ++ s1) :: splitDotAux [] s2 := by
  induction s1 with
  | nil => intro acc; simp [splitDotAux]
  | cons c cs ih =>
    intro acc
    have hc : ¬c = '.' := fun h => hs (by simp [h])
    have hcs : '.' ∉ cs := fun h => hs (List.mem_cons_of_mem _ h)
    simp [splitDotAux, hc, ih hcs]

theorem splitDot_version (a b : Nat) :
    splitDot (natToChars a ++ '.' :: natToChars b)
      = [natToChars a, natToChars b] := by
  unfold splitDot
  rw [splitDotAux_split _ _ (not_dot_mem_natToChars a)]
  rw [splitDotAux_no_dot _ (not_dot_mem_natToChars b)]
  simp

theorem loader_serialize_id :
    CellV2.id ∘ loaderCell ∘ serializeCell = Cell.idOf := by
  funext c; cases c <;> rfl

theorem loader_serialize_tag :
    CellV2.tag ∘ loaderCell ∘ serializeCell = Cell.kind := by
  funext c; cases c <;> rfl

theorem loader_serialize_source :
    CellV2.source ∘ loaderCell ∘ serializeCell = Cell.sourceOf := by
  funext c; cases c <;> rfl

/-- Claim C2: for every notebook object with only markdown and code cells
and no outputs whose version renders two integers joined by a single
period, re-loading the serialized tree-of-records dict
(`NotebookLoader`-style construction applied to `Serializer.serialize`)
yields a notebook with the same cell identifiers, the same cell kinds in
order, the same source line sequences, and the same version string: the
version is split on its period into two integers on serialization and
rejoined with a literal period on load. -/
theorem structured_roundtrip (nb : NbV1) (a b : Nat)
    (hv : nb.version = natToChars a ++ '.' :: natToChars b)
    (hout : nb.cells.all Cell.noOuts = true) :
    (serialize nb).map (fun d =>
      ((notebookLoaderOfDict d).version,
       (notebookLoaderOfDict d).cells.map CellV2.id,
       (notebookLoaderOfDict d).cells.map CellV2.tag,
       (notebookLoaderOfDict d).cells.map CellV2.source))
    = some (nb.version, nb.cells.map Cell.idOf, nb.cells.map Cell.kind,
        nb.cells.map Cell.sourceOf) := by
  have hsplit : splitDot nb.version = [natToChars a, natToChars b] := by
    rw [hv]; exact splitDot_version a b
  unfold serialize
  rw [hsplit]
  simp only [parseNat_natToChars, Option.map_some']
  unfold notebookLoaderOfDict
  simp only [List.map_map, loader_serialize_id, loader_serialize_tag,
    loader_serialize_source]
  rw [← hv]

/-- Witness for claim C2 at a concrete two-cell notebook with version
"4.5". -/
theorem structured_roundtrip_witness :
    (serialize nbSerializeW).map (fun d =>
      ((notebookLoaderOfDict d).version,
       (notebookLoaderOfDict d).cells.map CellV2.id,
       (notebookLoaderOfDict d).cells.map CellV2.tag,
       (notebookLoaderOfDict d).cells.map CellV2.source))
    = some (nbSerializeW.version, nbSerializeW.cells.map Cell.idOf,
        nbSerializeW.cells.map Cell.kind, nbSerializeW.cells.map Cell.sourceOf) :=
  structured_roundtrip nbSerializeW 4 5 rfl (by decide)
